import Mathlib

/-!
Shallow embedding of the 24-game collaborative client (repository `24`).

The canonical iteration uses exact fractions for card values: each card
stores a numerator `num` and denominator `denom`.  All state lives in a
single replicated `gameState` document; the functions below model the
client-side transition functions (`performOperation`, `handleCardClick`,
`endThinkingTime`, `resetCardsToOriginal`, the solver `recurse`/`calc`/
`convert`) as pure functions from a snapshot of that document to the
document produced by the Firebase writes the function issues.

JavaScript numbers are modelled as `Option ℚ` where `none` stands for
`NaN`; the remainder operator `%` is truncated remainder (sign of the
dividend) and yields `NaN` for a zero modulus, exactly as in JS.  The
recursive `gcd` helper of the source is modelled with explicit fuel
(`gcdFuel`), since as written it does not terminate on all inputs.
-/

inductive Operation where
  | add
  | subtract
  | multiply
  | divide
deriving DecidableEq, Repr

structure User where
  id : String
  name : String
  color : String
  score : Int
deriving DecidableEq, Repr

structure Card where
  id : String
  selected : Bool
  selectedBy : Option String
  num : ℚ
  denom : ℚ
deriving DecidableEq, Repr

structure CardHistory where
  id : String
  num : ℚ
  denom : ℚ
  isRemoved : Bool
deriving DecidableEq, Repr

structure GameState where
  cards : List (String × Card)
  selectedCardId : Option String
  currentOperation : Option Operation
  gameActive : Bool
  thinkingMode : Bool
  thinkingUserId : Option String
  thinkingUserName : Option String
  timerEndTime : Option Int
  thinkingEndTime : Option Int
  cardHistory : List CardHistory
  gameWon : Bool
  lastWinner : Option String
deriving DecidableEq, Repr

/-- Truncation toward zero, as JS `Math.trunc` / the implicit truncation in `%`. -/
def jsTrunc (q : ℚ) : ℤ :=
  if 0 ≤ q then ⌊q⌋ else ⌈q⌉

/-- JS remainder `a % b`: truncated remainder with the dividend's sign;
`x % 0` is `NaN`, and `NaN` propagates.  `none` models `NaN`. -/
def jsMod : Option ℚ → Option ℚ → Option ℚ
  | some a, some b => if b = 0 then none else some (a - b * (jsTrunc (a / b) : ℚ))
  | _, _ => none

/-- JS loose comparison `v == 0`: false for `NaN`. -/
def jsEqZero : Option ℚ → Bool
  | some q => decide (q = 0)
  | none => false

/-- The source's recursive helper, verbatim:
`gcd = (a, b) => a % b == 0 ? b : gcd(b, b % a)`.
Explicit fuel; `none` means the recursion did not finish within `fuel` calls. -/
def gcdFuel : Nat → Option ℚ → Option ℚ → Option (Option ℚ)
  | 0, _, _ => none
  | fuel + 1, a, b =>
    if jsEqZero (jsMod a b) then some b else gcdFuel fuel b (jsMod b a)

/-- `gameState.cards[cardId]` on the keyed cards map. -/
def lookupCard (cards : List (String × Card)) (cardId : String) : Option Card :=
  (cards.find? (fun p => p.1 == cardId)).map Prod.snd

/-- Firebase `update(gameState/cards/<cardId>, fields)`: patch the fields of an
existing card (every call site guards that the card exists). -/
def updateCard (cards : List (String × Card)) (cardId : String) (f : Card → Card) :
    List (String × Card) :=
  cards.map (fun p => if p.1 == cardId then (p.1, f p.2) else p)

/-- Firebase `remove(gameState/cards/<cardId>)`. -/
def removeCard (cards : List (String × Card)) (cardId : String) : List (String × Card) :=
  cards.filter (fun p => p.1 != cardId)

/-- Result of a `performOperation` call that ran to completion:
either it hit a guard and returned without writing, or it applied the
operation and left the store in the given state. -/
inductive OpResult where
  | noop
  | applied (st : GameState)
deriving DecidableEq, Repr

/-- The numerator produced by `performOperation`'s `switch(operation)`. -/
def rnOf (firstCard secondCard : Card) : Operation → ℚ
  | .add => firstCard.num * secondCard.denom + firstCard.denom * secondCard.num
  | .subtract => firstCard.num * secondCard.denom - firstCard.denom * secondCard.num
  | .multiply => firstCard.num * secondCard.num
  | .divide => firstCard.num * secondCard.denom

/-- The denominator produced by `performOperation`'s `switch(operation)`. -/
def rdOf (firstCard secondCard : Card) : Operation → ℚ
  | .add => firstCard.denom * secondCard.denom
  | .subtract => firstCard.denom * secondCard.denom
  | .multiply => firstCard.denom * secondCard.denom
  | .divide => firstCard.denom * secondCard.num

/-- The document after `performOperation`'s three writes (before the win
check): the clicked card `secondCardId` keeps its id and receives the reduced
result while staying selected, card `firstCardId` is removed, its history
entry is marked `isRemoved`, the selection moves to `secondCardId` and the
pending operation is cleared. -/
def appliedState (user : User) (st : GameState) (firstCardId secondCardId : String)
    (rnum rdenom : ℚ) : GameState :=
  { st with
    cards := removeCard
      (updateCard st.cards secondCardId
        (fun c => { c with num := rnum, denom := rdenom,
                           selected := true, selectedBy := some user.id }))
      firstCardId,
    selectedCardId := some secondCardId,
    currentOperation := none,
    cardHistory := st.cardHistory.map
      (fun c => if c.id == firstCardId then { c with isRemoved := true } else c) }

/-- `performOperation(firstCardId, secondCardId, operation)` of the rational
iteration, with the three Firebase writes folded into the returned state and
the score write (to the separate `users` path) outside the modelled document.
`none` means the call did not complete within `fuel` recursive `gcd` calls. -/
def performOperationF (fuel : Nat) (user : User) (st : GameState)
    (firstCardId secondCardId : String) (operation : Operation) : Option OpResult :=
  match lookupCard st.cards firstCardId, lookupCard st.cards secondCardId with
  | some firstCard, some secondCard =>
    let rn := rnOf firstCard secondCard operation
    let rd := rdOf firstCard secondCard operation
    match gcdFuel fuel (some rn) (some rd) with
    | none => none
    | some none => none
    | some (some d) =>
      let rnum := rn / d
      let rdenom := rd / d
      let st1 := appliedState user st firstCardId secondCardId rnum rdenom
      let remainingCards := st.cards.filter (fun p => p.1 != firstCardId)
      if remainingCards.length = 1 ∧ |rnum / rdenom - 24| < 1 / 1000 then
        some (.applied { st1 with gameActive := false, gameWon := true,
                                  lastWinner := some user.id })
      else
        some (.applied st1)
  | _, _ => some .noop

/-- The original cards rebuilt from the history snapshot, as
`resetCardsToOriginal` recreates them (selection cleared). -/
def restoredCards (history : List CardHistory) : List (String × Card) :=
  history.map (fun h =>
    (h.id, { id := h.id, num := h.num, denom := h.denom,
             selected := false, selectedBy := none }))

/-- `resetCardsToOriginal()`: one Firebase update writing the rebuilt cards map
and clearing `selectedCardId` / `currentOperation`. -/
def resetCardsToOriginal (st : GameState) : GameState :=
  { st with cards := restoredCards st.cardHistory,
            selectedCardId := none, currentOperation := none }

/-- The success check of `endThinkingTime`: exactly one card remains and its
value is within `0.001` of 24. -/
def succeededCheck (cards : List (String × Card)) : Bool :=
  match cards with
  | [p] => decide (|p.2.num / p.2.denom - 24| < 1 / 1000)
  | _ => false

/-- `startThinkingTime`'s snapshot of the remaining reset time:
`timerEndTime ? max(0, ceil((timerEndTime - now) / 1000)) : 30` (seconds).
`timerEndTime` equal to `0` is falsy in JS. -/
def remainingGameTime (timerEndTime : Option Int) (now : Int) : Int :=
  match timerEndTime with
  | some t => if t = 0 then 30 else max 0 ⌈((t - now : Int) : ℚ) / 1000⌉
  | none => 30

/-- `endThinkingTime()` of the rational iteration: on success end the game as
won; on failure restore the board via `resetCardsToOriginal` and restart the
reset timer from the saved remaining seconds.  The score write (to the
separate `users` path) is outside the modelled document. -/
def endThinkingTime (user : User) (st : GameState) (now : Int)
    (savedTimeUntilReset : Int) : GameState :=
  if succeededCheck st.cards then
    { st with thinkingMode := false, thinkingUserId := none,
              thinkingUserName := none, thinkingEndTime := none,
              gameActive := false, gameWon := true,
              lastWinner := some user.id }
  else
    let st1 := resetCardsToOriginal st
    { st1 with thinkingMode := false, thinkingUserId := none,
               thinkingUserName := none, thinkingEndTime := none,
               timerEndTime := some (now + savedTimeUntilReset * 1000) }

/-- The inconsistency test of `handleCardClick`: the selection points to a
missing card, or an operation is set without a selection. -/
def inconsistentState (st : GameState) : Bool :=
  (match st.selectedCardId with
   | some cid => (lookupCard st.cards cid).isNone
   | none => false)
  || (st.currentOperation.isSome && st.selectedCardId.isNone)

/-- `card.selected && card.selectedBy && card.selectedBy !== currentUser.id`. -/
def selectedByOther (card : Card) (uid : String) : Bool :=
  card.selected &&
    (match card.selectedBy with
     | some x => x != uid
     | none => false)

/-- `handleCardClick(cardId)` of the rational iteration, with the writes of the
taken branch folded into the returned state.  `none` means the call did not
complete (the `performOperation` branch ran out of `gcd` fuel). -/
def handleCardClick (fuel : Nat) (user : User) (st : GameState) (cardId : String) :
    Option GameState :=
  if !st.gameActive then some st
  else if !st.thinkingMode || st.thinkingUserId != some user.id then some st
  else
    match lookupCard st.cards cardId with
    | none => some st
    | some card =>
      if selectedByOther card user.id then some st
      else if inconsistentState st then
        some { st with selectedCardId := none, currentOperation := none }
      else if st.selectedCardId.isNone then
        some { st with
          cards := updateCard st.cards cardId
            (fun c => { c with selected := true, selectedBy := some user.id }),
          selectedCardId := some cardId }
      else if st.currentOperation.isSome && some cardId != st.selectedCardId then
        match st.selectedCardId, st.currentOperation with
        | some firstId, some op =>
          (performOperationF fuel user st firstId cardId op).map
            (fun r => match r with | .noop => st | .applied st1 => st1)
        | _, _ => some st
      else if st.currentOperation.isNone && some cardId != st.selectedCardId then
        let cards1 :=
          match st.selectedCardId with
          | some prevId => updateCard st.cards prevId
              (fun c => { c with selected := false, selectedBy := none })
          | none => st.cards
        some { st with
          cards := updateCard cards1 cardId
            (fun c => { c with selected := true, selectedBy := some user.id }),
          selectedCardId := some cardId }
      else if st.selectedCardId == some cardId && card.selectedBy == some user.id then
        some { st with
          cards := updateCard st.cards cardId
            (fun c => { c with selected := false, selectedBy := none }),
          selectedCardId := none, currentOperation := none }
      else some st

/-- The exact value of a finite JS number inside the solver's stack machine:
a fraction with (by construction) positive denominator, kept unnormalized so
all arithmetic is plain integer arithmetic. -/
structure Frac where
  num : Int
  den : Int
deriving DecidableEq, Repr

/-- Move a sign out of the denominator so it stays positive. -/
def Frac.withPosDen (n d : Int) : Frac :=
  if d < 0 then ⟨-n, -d⟩ else ⟨n, d⟩

def Frac.addF (a b : Frac) : Frac := ⟨a.num * b.den + b.num * a.den, a.den * b.den⟩

def Frac.subF (a b : Frac) : Frac := ⟨a.num * b.den - b.num * a.den, a.den * b.den⟩

def Frac.mulF (a b : Frac) : Frac := ⟨a.num * b.num, a.den * b.den⟩

def Frac.divF (a b : Frac) : Frac := Frac.withPosDen (a.num * b.den) (a.den * b.num)

/-- `|d| < t`, for fractions with positive denominators and `t ≥ 0`. -/
def Frac.absLt (d t : Frac) : Bool :=
  d.num.natAbs * t.den.natAbs < t.num.natAbs * d.den.natAbs

/-- The rational value a `Frac` denotes. -/
def Frac.val (f : Frac) : ℚ := (f.num : ℚ) / (f.den : ℚ)

/-- One step of the solver's stack machine (`calc`), on exact values.
`none` poisons the computation: a popped-empty stack or a division by zero
produces `NaN`/`Infinity` in JS, and no such run can pass the final
`|result - x| < 1e-6` test (with only four operands, a non-finite value can
never collapse back to a finite one, since the infinite operand is always
the earlier-pushed, left argument of every later operator). -/
def calcStep (s : Option (List Frac)) (i : Int) : Option (List Frac) :=
  match s with
  | none => none
  | some stack =>
    if i > 0 then some (⟨i, 1⟩ :: stack)
    else
      match stack with
      | b :: a :: rest =>
        if i = -1 then some (a.addF b :: rest)
        else if i = -2 then some (a.subF b :: rest)
        else if i = -3 then some (a.mulF b :: rest)
        else if i = -4 then (if b.num = 0 then none else some (a.divF b :: rest))
        else some rest
      | _ => none

/-- `calc(dq)`: run the stack machine; empty final stack yields 0. -/
def calcRPN (dq : List Int) : Option Frac :=
  match dq.foldl calcStep (some []) with
  | none => none
  | some [] => some ⟨0, 1⟩
  | some (v :: _) => some v

/-- `recurse(nums, dq, x)`: depth-first search for a 7-token RPN sequence
evaluating to `x` within `1e-6`.  Operators (`-1`..`-4`) are tried first when
the remaining token budget requires one, then each remaining operand in list
order.  Returns the first found sequence.  Fuel bounds the recursion depth
(depth never exceeds 8 from an empty `dq`). -/
def recurseF : Nat → List Int → List Int → Frac → Option (List Int)
  | 0, _, _, _ => none
  | fuel + 1, nums, dq, x =>
    if dq.length = 7 then
      match calcRPN dq with
      | some v => if (v.subF x).absLt ⟨1, 1000000⟩ then some dq else none
      | none => none
    else
      let viaOps : Option (List Int) :=
        if dq.length + 2 * nums.length < 7 then
          [-1, -2, -3, -4].findSome? (fun o => recurseF fuel nums (dq ++ [o]) x)
        else none
      match viaOps with
      | some r => some r
      | none =>
        (List.range nums.length).findSome? (fun i =>
          recurseF fuel (nums.eraseIdx i) (dq ++ [nums.getD i 0]) x)

/-- `solve()`: search from the four original card values; `[]` when no
sequence is found. -/
def solveF (fuel : Nat) (a b c d : Int) : List Int :=
  (recurseF fuel [a, b, c, d] [] ⟨24, 1⟩).getD []

/-- JS `stack.pop()` on a string stack: `undefined` when empty. -/
def popS : List String → String × List String
  | [] => ("undefined", [])
  | s :: rest => (s, rest)

/-- One step of `convert`'s stack replay, building parenthesized infix text. -/
def convertStep (stack : List String) (i : Int) : List String :=
  if i > 0 then toString i :: stack
  else
    let (b, s1) := popS stack
    let (a, s2) := popS s1
    if i = -1 then ("(" ++ a ++ " + " ++ b ++ ")") :: s2
    else if i = -2 then ("(" ++ a ++ " - " ++ b ++ ")") :: s2
    else if i = -3 then ("(" ++ a ++ " * " ++ b ++ ")") :: s2
    else if i = -4 then ("(" ++ a ++ " / " ++ b ++ ")") :: s2
    else s2

/-- `convert(dq)`: `"No solution."` for an empty sequence, otherwise the fully
parenthesized infix rendering followed by `" = 24"`. -/
def convertRPN (dq : List Int) : String :=
  if dq.isEmpty then "No solution."
  else ((dq.foldl convertStep []).headD "undefined") ++ " = 24"

/-! ### Behaviour of the `gcd` helper

`gcd(a, b) = a % b == 0 ? b : gcd(b, b % a)` recurses with `b % a` where
Euclid's algorithm needs `a % b`.  Once the second argument reaches `0` the
chain is `(a, 0) → (0, 0) → (0, NaN) → (NaN, NaN) → (NaN, NaN) → …`, since
`x % 0` is `NaN` and `NaN == 0` is false, so the recursion never stops. -/

lemma jsMod_nan_right (a : Option ℚ) : jsMod a none = none := by
  cases a <;> rfl

lemma jsMod_nan_left (b : Option ℚ) : jsMod none b = none := rfl

lemma jsMod_zero_denom (a : ℚ) : jsMod (some a) (some 0) = none := by
  simp [jsMod]

lemma jsMod_zero_num (a : ℚ) (h : a ≠ 0) : jsMod (some 0) (some a) = some 0 := by
  simp [jsMod, jsTrunc, h]

lemma gcdFuel_nan_nan : ∀ fuel, gcdFuel fuel none none = none := by
  intro fuel
  induction fuel with
  | zero => rfl
  | succ n ih => simp [gcdFuel, jsMod, jsEqZero, ih]

lemma gcdFuel_zero_nan : ∀ fuel, gcdFuel fuel (some 0) none = none := by
  intro fuel
  cases fuel with
  | zero => rfl
  | succ n => simp [gcdFuel, jsMod_nan_right, jsMod_nan_left, jsEqZero, gcdFuel_nan_nan]

lemma gcdFuel_zero_zero : ∀ fuel, gcdFuel fuel (some 0) (some 0) = none := by
  intro fuel
  cases fuel with
  | zero => rfl
  | succ n =>
    simp [gcdFuel, jsMod_zero_denom, jsEqZero, gcdFuel_zero_nan]

lemma gcdFuel_any_zero (a : ℚ) : ∀ fuel, gcdFuel fuel (some a) (some 0) = none := by
  intro fuel
  cases fuel with
  | zero => rfl
  | succ n =>
    by_cases ha : a = 0
    · subst ha
      exact gcdFuel_zero_zero (n + 1)
    · simp [gcdFuel, jsMod_zero_denom, jsEqZero, jsMod_zero_num a ha, gcdFuel_zero_zero]

lemma jsMod_three_one : jsMod (some (3 : ℚ)) (some 1) = some 0 := by
  simp [jsMod, jsTrunc]

lemma jsMod_one_three : jsMod (some (1 : ℚ)) (some 3) = some 1 := by
  simp [jsMod, jsTrunc]
  norm_num

/-- C9: the recursive `gcd` helper is claimed to terminate on every pair
`performOperation` can pass it.  It does not: on `(1, 3)` — produced by
dividing a card of value `1` by a card of value `3` — the call chain is
`gcd(1,3) → gcd(3,0) → gcd(0,0) → gcd(0,NaN) → gcd(NaN,NaN) → …`, which
never returns however much fuel it is given. -/
theorem gcd_diverges_on_one_three : ∀ fuel : Nat, gcdFuel fuel (some 1) (some 3) = none := by
  intro fuel
  cases fuel with
  | zero => rfl
  | succ n =>
    have h1 : jsEqZero (jsMod (some (1 : ℚ)) (some 3)) = false := by
      rw [jsMod_one_three]; simp [jsEqZero]
    simp only [gcdFuel, h1, if_false, jsMod_three_one]
    exact gcdFuel_any_zero 3 n

/-- A connected participant used in the concrete scenarios below. -/
def sampleUser : User := { id := "user_1", name := "Alice", color := "#ff0000", score := 0 }

/-- A mid-attempt snapshot in which the selected card `card_0` has value `1`
and the clicked divisor card `card_1` has value `0` (obtained e.g. from
`3 - 3`); `card_2`, `card_3` were already consumed. -/
def divZeroState : GameState :=
  { cards := [("card_0", { id := "card_0", selected := true, selectedBy := some "user_1",
                           num := 1, denom := 1 }),
              ("card_1", { id := "card_1", selected := false, selectedBy := none,
                           num := 0, denom := 1 })],
    selectedCardId := some "card_0",
    currentOperation := some .divide,
    gameActive := true,
    thinkingMode := true,
    thinkingUserId := some "user_1",
    thinkingUserName := some "Alice",
    timerEndTime := some 100000,
    thinkingEndTime := some 50000,
    cardHistory := [{ id := "card_0", num := 3, denom := 1, isRemoved := false },
                    { id := "card_1", num := 3, denom := 1, isRemoved := false },
                    { id := "card_2", num := 4, denom := 1, isRemoved := true },
                    { id := "card_3", num := 7, denom := 1, isRemoved := true }],
    gameWon := false,
    lastWinner := none }

/-- C1: dividing by the zero-valued card `card_1` never completes: the call
reaches `gcd(1, 0)`, whose recursion never returns, so no store write and no
local rejection ever happens — the claimed clean guard is absent from the
rational iteration. -/
theorem divide_by_zero_never_completes :
    ∀ fuel : Nat,
      performOperationF fuel sampleUser divZeroState "card_0" "card_1" .divide = none := by
  intro fuel
  have hl0 : lookupCard divZeroState.cards "card_0" =
      some { id := "card_0", selected := true, selectedBy := some "user_1",
             num := 1, denom := 1 } := rfl
  have hl1 : lookupCard divZeroState.cards "card_1" =
      some { id := "card_1", selected := false, selectedBy := none,
             num := 0, denom := 1 } := rfl
  have hg : gcdFuel fuel (some ((1 : ℚ) * 1)) (some ((1 : ℚ) * 0)) = none := by
    norm_num
    exact gcdFuel_any_zero 1 fuel
  simp only [performOperationF, hl0, hl1, rnOf, rdOf, hg]

lemma jsMod_three_two : jsMod (some (3 : ℚ)) (some 2) = some 1 := by
  have ht : jsTrunc ((3 : ℚ) / 2) = 1 := by
    simp only [jsTrunc]
    norm_num
  simp [jsMod, ht]
  norm_num

lemma jsMod_two_three : jsMod (some (2 : ℚ)) (some 3) = some 2 := by
  have ht : jsTrunc ((2 : ℚ) / 3) = 0 := by
    simp only [jsTrunc]
    norm_num
  simp [jsMod, ht]

lemma jsMod_two_two : jsMod (some (2 : ℚ)) (some 2) = some 0 := by
  simp [jsMod, jsTrunc]

/-- The helper returns `2` on `(3, 2)` — the greatest common divisor of 3 and
2 is 1, so the subsequent reduction divides by a non-divisor. -/
lemma gcdFuel_three_two : gcdFuel 10 (some (3 : ℚ)) (some 2) = some (some 2) := by
  have h1 : jsEqZero (jsMod (some (3 : ℚ)) (some 2)) = false := by
    rw [jsMod_three_two]; simp [jsEqZero]
  have h2 : jsEqZero (jsMod (some (2 : ℚ)) (some 2)) = true := by
    rw [jsMod_two_two]; simp [jsEqZero]
  show gcdFuel (9 + 1) (some (3 : ℚ)) (some 2) = some (some 2)
  rw [gcdFuel, h1, if_neg (by simp), jsMod_two_three]
  show gcdFuel (8 + 1) (some (2 : ℚ)) (some 2) = some (some 2)
  rw [gcdFuel, h2, if_pos rfl]

/-- A snapshot in which the holder divides the selected card `card_0 = 3`
by the clicked card `card_1 = 2` (a third card keeps the round going). -/
def lowestTermsState : GameState :=
  { cards := [("card_0", { id := "card_0", selected := true, selectedBy := some "user_1",
                           num := 3, denom := 1 }),
              ("card_1", { id := "card_1", selected := false, selectedBy := none,
                           num := 2, denom := 1 }),
              ("card_2", { id := "card_2", selected := false, selectedBy := none,
                           num := 5, denom := 1 }),
              ("card_3", { id := "card_3", selected := false, selectedBy := none,
                           num := 7, denom := 1 })],
    selectedCardId := some "card_0",
    currentOperation := some .divide,
    gameActive := true,
    thinkingMode := true,
    thinkingUserId := some "user_1",
    thinkingUserName := some "Alice",
    timerEndTime := some 100000,
    thinkingEndTime := some 50000,
    cardHistory := [{ id := "card_0", num := 3, denom := 1, isRemoved := false },
                    { id := "card_1", num := 2, denom := 1, isRemoved := false },
                    { id := "card_2", num := 5, denom := 1, isRemoved := false },
                    { id := "card_3", num := 7, denom := 1, isRemoved := false }],
    gameWon := false,
    lastWinner := none }

/-- The snapshot `performOperation` leaves behind for that division: the
result card stores numerator `3/2` and denominator `1`. -/
def lowestTermsResult : GameState :=
  { cards := [("card_1", { id := "card_1", selected := true, selectedBy := some "user_1",
                           num := 3 / 2, denom := 1 }),
              ("card_2", { id := "card_2", selected := false, selectedBy := none,
                           num := 5, denom := 1 }),
              ("card_3", { id := "card_3", selected := false, selectedBy := none,
                           num := 7, denom := 1 })],
    selectedCardId := some "card_1",
    currentOperation := none,
    gameActive := true,
    thinkingMode := true,
    thinkingUserId := some "user_1",
    thinkingUserName := some "Alice",
    timerEndTime := some 100000,
    thinkingEndTime := some 50000,
    cardHistory := [{ id := "card_0", num := 3, denom := 1, isRemoved := true },
                    { id := "card_1", num := 2, denom := 1, isRemoved := false },
                    { id := "card_2", num := 5, denom := 1, isRemoved := false },
                    { id := "card_3", num := 7, denom := 1, isRemoved := false }],
    gameWon := false,
    lastWinner := none }

/-- Evaluating `performOperation(card_0, card_1, divide)` on `lowestTermsState`. -/
lemma performOperation_div_three_two :
    performOperationF 10 sampleUser lowestTermsState "card_0" "card_1" .divide
      = some (.applied lowestTermsResult) := by
  have hl0 : lookupCard lowestTermsState.cards "card_0" =
      some { id := "card_0", selected := true, selectedBy := some "user_1",
             num := 3, denom := 1 } := rfl
  have hl1 : lookupCard lowestTermsState.cards "card_1" =
      some { id := "card_1", selected := false, selectedBy := none,
             num := 2, denom := 1 } := rfl
  have hg : gcdFuel 10 (some ((3 : ℚ) * 1)) (some ((1 : ℚ) * 2)) = some (some 2) := by
    norm_num
    exact gcdFuel_three_two
  simp only [performOperationF, hl0, hl1, rnOf, rdOf, hg]
  norm_num [appliedState, lowestTermsState, lowestTermsResult, updateCard, removeCard, abs_lt]
  simp [sampleUser]

/-- C2: dividing card `3` by card `2` stores the card `num = 3/2, denom = 1`:
the `gcd` helper answers `2` for `(3, 2)` although `gcd 3 2 = 1`, so the
"reduction" divides by a non-divisor and the stored numerator is not even an
integer (its reduced denominator is 2) — the result is not a fraction in
lowest terms. -/
theorem divide_result_not_lowest_terms :
    performOperationF 10 sampleUser lowestTermsState "card_0" "card_1" .divide
        = some (.applied lowestTermsResult)
      ∧ lookupCard lowestTermsResult.cards "card_1" =
          some { id := "card_1", selected := true, selectedBy := some "user_1",
                 num := 3 / 2, denom := 1 }
      ∧ ((3 : ℚ) / 2).den = 2
      ∧ Nat.gcd 3 2 = 1
      ∧ gcdFuel 10 (some (3 : ℚ)) (some 2) = some (some 2) :=
  ⟨performOperation_div_three_two, rfl, by norm_num, rfl, gcdFuel_three_two⟩

/-- A snapshot in which a single card of value `47999/2000 = 23.9995` remains
when the thinking deadline resolves. -/
def nearWinState : GameState :=
  { cards := [("card_2", { id := "card_2", selected := true, selectedBy := some "user_1",
                           num := 47999, denom := 2000 })],
    selectedCardId := some "card_2",
    currentOperation := none,
    gameActive := true,
    thinkingMode := true,
    thinkingUserId := some "user_1",
    thinkingUserName := some "Alice",
    timerEndTime := some 100000,
    thinkingEndTime := some 50000,
    cardHistory := [{ id := "card_0", num := 3, denom := 1, isRemoved := true },
                    { id := "card_1", num := 3, denom := 1, isRemoved := true },
                    { id := "card_2", num := 8, denom := 1, isRemoved := false },
                    { id := "card_3", num := 8, denom := 1, isRemoved := true }],
    gameWon := false,
    lastWinner := none }

/-- C3 counterexample: the thinking-timeout success path sets the won flag for
a single remaining card of value `47999/2000 = 23.9995`, which passes the
`|value - 24| < 0.001` check but is strictly less than 24, so the card's
value does not equal 24 exactly (`num ≠ 24 × denom`). -/
theorem won_set_with_value_not_24 :
    (endThinkingTime sampleUser nearWinState 99000 12).gameWon = true
    ∧ (endThinkingTime sampleUser nearWinState 99000 12).cards = nearWinState.cards
    ∧ nearWinState.cards =
        [("card_2", { id := "card_2", selected := true, selectedBy := some "user_1",
                      num := 47999, denom := 2000 })]
    ∧ (47999 : ℚ) / 2000 < 24 := by
  have hs : succeededCheck nearWinState.cards = true := by
    simp only [succeededCheck, nearWinState, decide_eq_true_eq]
    norm_num [abs_lt]
  refine ⟨?_, ?_, rfl, by norm_num⟩
  · simp [endThinkingTime, hs]
  · simp [endThinkingTime, hs]

/-! ### Structure of the cards map after an applied operation -/

lemma lookupCard_cons_eq (p : String × Card) (rest : List (String × Card)) (i : String)
    (hp : p.1 = i) : lookupCard (p :: rest) i = some p.2 := by
  unfold lookupCard
  rw [List.find?_cons_of_pos _ (by simp [hp])]
  rfl

lemma lookupCard_cons_ne (p : String × Card) (rest : List (String × Card)) (i : String)
    (hp : p.1 ≠ i) : lookupCard (p :: rest) i = lookupCard rest i := by
  unfold lookupCard
  rw [List.find?_cons_of_neg _ (by simp [hp])]

lemma updateCard_cons (p : String × Card) (rest : List (String × Card)) (i : String)
    (f : Card → Card) :
    updateCard (p :: rest) i f =
      (if p.1 == i then (p.1, f p.2) else p) :: updateCard rest i f := rfl

lemma removeCard_cons (p : String × Card) (rest : List (String × Card)) (i : String) :
    removeCard (p :: rest) i =
      if p.1 != i then p :: removeCard rest i else removeCard rest i := by
  unfold removeCard
  rw [List.filter_cons]

lemma lookupCard_updateCard_self (cards : List (String × Card)) (i : String)
    (f : Card → Card) (c : Card) (h : lookupCard cards i = some c) :
    lookupCard (updateCard cards i f) i = some (f c) := by
  induction cards with
  | nil => simp [lookupCard] at h
  | cons p rest ih =>
    by_cases hp : p.1 = i
    · rw [lookupCard_cons_eq p rest i hp] at h
      rw [updateCard_cons, if_pos (by simp [hp]),
        lookupCard_cons_eq (p.1, f p.2) _ i hp]
      rw [Option.some_inj] at h
      rw [← h]
    · rw [lookupCard_cons_ne p rest i hp] at h
      rw [updateCard_cons, if_neg (by simp [hp]),
        lookupCard_cons_ne _ _ _ hp]
      exact ih h

lemma lookupCard_removeCard_self (cards : List (String × Card)) (i : String) :
    lookupCard (removeCard cards i) i = none := by
  induction cards with
  | nil => rfl
  | cons p rest ih =>
    by_cases hp : p.1 = i
    · rw [removeCard_cons, if_neg (by simp [hp])]
      exact ih
    · rw [removeCard_cons, if_pos (by simp [hp]), lookupCard_cons_ne _ _ _ hp]
      exact ih

lemma lookupCard_removeCard_ne (cards : List (String × Card)) (i j : String)
    (hij : i ≠ j) : lookupCard (removeCard cards j) i = lookupCard cards i := by
  induction cards with
  | nil => rfl
  | cons p rest ih =>
    by_cases hp : p.1 = j
    · have hpi : p.1 ≠ i := fun h => hij (h ▸ hp : i = j)
      rw [removeCard_cons, if_neg (by simp [hp]), lookupCard_cons_ne _ _ _ hpi]
      exact ih
    · by_cases hpi : p.1 = i
      · rw [removeCard_cons, if_pos (by simp [hp]), lookupCard_cons_eq _ _ _ hpi,
          lookupCard_cons_eq _ _ _ hpi]
      · rw [removeCard_cons, if_pos (by simp [hp]), lookupCard_cons_ne _ _ _ hpi,
          lookupCard_cons_ne _ _ _ hpi]
        exact ih

lemma keys_updateCard (cards : List (String × Card)) (i : String) (f : Card → Card) :
    (updateCard cards i f).map Prod.fst = cards.map Prod.fst := by
  induction cards with
  | nil => rfl
  | cons p rest ih =>
    rw [updateCard_cons]
    by_cases hp : p.1 = i
    · rw [if_pos (by simp [hp])]
      simpa using ih
    · rw [if_neg (by simp [hp])]
      simpa using ih

lemma length_updateCard (cards : List (String × Card)) (i : String) (f : Card → Card) :
    (updateCard cards i f).length = cards.length :=
  List.length_map cards _

lemma lookupCard_isSome_mem (cards : List (String × Card)) (i : String) (c : Card)
    (h : lookupCard cards i = some c) : i ∈ cards.map Prod.fst := by
  induction cards with
  | nil => simp [lookupCard] at h
  | cons p rest ih =>
    by_cases hp : p.1 = i
    · simp [hp]
    · rw [lookupCard_cons_ne p rest i hp] at h
      simp [ih h]

lemma length_removeCard (cards : List (String × Card)) (i : String)
    (hnd : (cards.map Prod.fst).Nodup) (hmem : i ∈ cards.map Prod.fst) :
    (removeCard cards i).length + 1 = cards.length := by
  induction cards with
  | nil => simp at hmem
  | cons p rest ih =>
    simp only [List.map_cons, List.nodup_cons] at hnd
    by_cases hp : p.1 = i
    · have hnotin : removeCard rest i = rest := by
        apply List.filter_eq_self.mpr
        intro q hq
        have hqmem : q.1 ∈ rest.map Prod.fst := List.mem_map_of_mem Prod.fst hq
        have hqi : q.1 ≠ i := by
          intro hqi
          exact hnd.1 (by rw [hp, ← hqi]; exact hqmem)
        simpa using hqi
      rw [removeCard_cons, if_neg (by simp [hp]), hnotin]
      simp
    · have hmem' : i ∈ rest.map Prod.fst := by
        rcases List.mem_cons.mp hmem with h | h
        · exact absurd h.symm hp
        · exact h
      have hrec := ih hnd.2 hmem'
      rw [removeCard_cons, if_pos (by simp [hp])]
      simp only [List.length_cons]
      omega

lemma keys_removeCard_sublist (cards : List (String × Card)) (i : String) :
    ((removeCard cards i).map Prod.fst).Sublist (cards.map Prod.fst) :=
  List.Sublist.map Prod.fst (List.filter_sublist cards)

/-- Inversion of a completed, applied `performOperation` call: both cards were
present, the `gcd` call finished with value `d`, and the resulting document is
`appliedState` — plus, when the win check passed, the ended/won/winner flags. -/
lemma performOperationF_applied_inv {fuel : Nat} {u : User} {st : GameState}
    {a b : String} {op : Operation} {st' : GameState}
    (h : performOperationF fuel u st a b op = some (.applied st')) :
    ∃ fc sc d, lookupCard st.cards a = some fc ∧ lookupCard st.cards b = some sc ∧
      gcdFuel fuel (some (rnOf fc sc op)) (some (rdOf fc sc op)) = some (some d) ∧
      (((st.cards.filter (fun p => p.1 != a)).length = 1 ∧
          |rnOf fc sc op / d / (rdOf fc sc op / d) - 24| < 1 / 1000 ∧
          st' = { appliedState u st a b (rnOf fc sc op / d) (rdOf fc sc op / d) with
                    gameActive := false, gameWon := true, lastWinner := some u.id })
        ∨ (¬ ((st.cards.filter (fun p => p.1 != a)).length = 1 ∧
              |rnOf fc sc op / d / (rdOf fc sc op / d) - 24| < 1 / 1000) ∧
          st' = appliedState u st a b (rnOf fc sc op / d) (rdOf fc sc op / d))) := by
  unfold performOperationF at h
  rcases ha : lookupCard st.cards a with _ | fc <;> rw [ha] at h
  · simp at h
  · rcases hb : lookupCard st.cards b with _ | sc <;> rw [hb] at h
    · simp at h
    · simp only at h
      rcases hg : gcdFuel fuel (some (rnOf fc sc op)) (some (rdOf fc sc op))
        with _ | (_ | d) <;> rw [hg] at h <;> simp only at h
      · exact absurd h (by simp)
      · exact absurd h (by simp)
      · refine ⟨fc, sc, d, rfl, rfl, hg, ?_⟩
        by_cases hwin : (st.cards.filter (fun p => p.1 != a)).length = 1 ∧
            |rnOf fc sc op / d / (rdOf fc sc op / d) - 24| < 1 / 1000
        · rw [if_pos hwin] at h
          simp only [Option.some.injEq, OpResult.applied.injEq] at h
          exact Or.inl ⟨hwin.1, hwin.2, h.symm⟩
        · rw [if_neg hwin] at h
          simp only [Option.some.injEq, OpResult.applied.injEq] at h
          exact Or.inr ⟨hwin, h.symm⟩

/-- C3 (amended): whenever the win branch of `performOperation` or the
thinking-timeout success path sets the won flag, the single remaining card's
value is within `0.001` of 24 (`|num/denom - 24| < 1/1000`) — but not
necessarily equal to 24 exactly, since both branches test the `0.001`
tolerance rather than exact equality. -/
theorem won_implies_within_tolerance :
    (∀ (u : User) (st : GameState) (now saved : Int),
        (endThinkingTime u st now saved).gameWon = true →
        st.gameWon = true ∨
          ∃ p : String × Card, st.cards = [p] ∧ |p.2.num / p.2.denom - 24| < 1 / 1000)
    ∧ (∀ (fuel : Nat) (u : User) (st : GameState) (a b : String) (op : Operation)
          (st' : GameState),
        performOperationF fuel u st a b op = some (.applied st') → a ≠ b →
        st'.gameWon = true →
        st.gameWon = true ∨
          ∃ c : Card, lookupCard st'.cards b = some c ∧
            |c.num / c.denom - 24| < 1 / 1000) := by
  constructor
  · intro u st now saved hw
    unfold endThinkingTime at hw
    by_cases hs : succeededCheck st.cards = true
    · right
      generalize hxs : st.cards = xs at hs ⊢
      rcases xs with _ | ⟨p, _ | ⟨q, r⟩⟩
      · simp [succeededCheck] at hs
      · simp only [succeededCheck, decide_eq_true_eq] at hs
        exact ⟨p, rfl, hs⟩
      · simp [succeededCheck] at hs
    · rw [if_neg hs] at hw
      left
      exact hw
  · intro fuel u st a b op st' h hab hw
    obtain ⟨fc, sc, d, ha, hb, hg, hcase⟩ := performOperationF_applied_inv h
    rcases hcase with ⟨hlen, htol, hst⟩ | ⟨hneg, hst⟩
    · right
      have h1 := lookupCard_updateCard_self st.cards b
        (fun c => { c with num := rnOf fc sc op / d, denom := rdOf fc sc op / d,
                           selected := true, selectedBy := some u.id }) sc hb
      have h2 : lookupCard st'.cards b =
          some { sc with num := rnOf fc sc op / d, denom := rdOf fc sc op / d,
                         selected := true, selectedBy := some u.id } := by
        rw [hst]
        show lookupCard (removeCard _ a) b = _
        rw [lookupCard_removeCard_ne _ b a (Ne.symm hab)]
        exact h1
      exact ⟨_, h2, htol⟩
    · left
      rw [hst] at hw
      exact hw

/-- A snapshot with a single remaining card of value exactly 24. -/
def exactWinState : GameState :=
  { cards := [("card_1", { id := "card_1", selected := true, selectedBy := some "user_1",
                           num := 24, denom := 1 })],
    selectedCardId := some "card_1",
    currentOperation := none,
    gameActive := true,
    thinkingMode := true,
    thinkingUserId := some "user_1",
    thinkingUserName := some "Alice",
    timerEndTime := some 100000,
    thinkingEndTime := some 50000,
    cardHistory := [{ id := "card_0", num := 23, denom := 1, isRemoved := true },
                    { id := "card_1", num := 1, denom := 1, isRemoved := false },
                    { id := "card_2", num := 4, denom := 1, isRemoved := true },
                    { id := "card_3", num := 6, denom := 1, isRemoved := true }],
    gameWon := false,
    lastWinner := none }

/-- A snapshot in which adding the selected `card_0 = 23` onto the clicked
`card_1 = 1` produces 24 and wins the round. -/
def addWinState : GameState :=
  { cards := [("card_0", { id := "card_0", selected := true, selectedBy := some "user_1",
                           num := 23, denom := 1 }),
              ("card_1", { id := "card_1", selected := false, selectedBy := none,
                           num := 1, denom := 1 })],
    selectedCardId := some "card_0",
    currentOperation := some .add,
    gameActive := true,
    thinkingMode := true,
    thinkingUserId := some "user_1",
    thinkingUserName := some "Alice",
    timerEndTime := some 100000,
    thinkingEndTime := some 50000,
    cardHistory := [{ id := "card_0", num := 23, denom := 1, isRemoved := false },
                    { id := "card_1", num := 1, denom := 1, isRemoved := false },
                    { id := "card_2", num := 4, denom := 1, isRemoved := true },
                    { id := "card_3", num := 6, denom := 1, isRemoved := true }],
    gameWon := false,
    lastWinner := none }

/-- The winning document `performOperation(card_0, card_1, add)` writes from
`addWinState`. -/
def addWinResult : GameState :=
  { cards := [("card_1", { id := "card_1", selected := true, selectedBy := some "user_1",
                           num := 24, denom := 1 })],
    selectedCardId := some "card_1",
    currentOperation := none,
    gameActive := false,
    thinkingMode := true,
    thinkingUserId := some "user_1",
    thinkingUserName := some "Alice",
    timerEndTime := some 100000,
    thinkingEndTime := some 50000,
    cardHistory := [{ id := "card_0", num := 23, denom := 1, isRemoved := true },
                    { id := "card_1", num := 1, denom := 1, isRemoved := false },
                    { id := "card_2", num := 4, denom := 1, isRemoved := true },
                    { id := "card_3", num := 6, denom := 1, isRemoved := true }],
    gameWon := true,
    lastWinner := some "user_1" }

lemma jsMod_tfour_one : jsMod (some (24 : ℚ)) (some 1) = some 0 := by
  simp [jsMod, jsTrunc]

lemma gcdFuel_tfour_one : gcdFuel 10 (some (24 : ℚ)) (some 1) = some (some 1) := by
  show gcdFuel (9 + 1) (some (24 : ℚ)) (some 1) = some (some 1)
  rw [gcdFuel, jsMod_tfour_one]
  simp [jsEqZero]

/-- Evaluating `performOperation(card_0, card_1, add)` on `addWinState`. -/
lemma performOperation_add_win :
    performOperationF 10 sampleUser addWinState "card_0" "card_1" .add
      = some (.applied addWinResult) := by
  have hl0 : lookupCard addWinState.cards "card_0" =
      some { id := "card_0", selected := true, selectedBy := some "user_1",
             num := 23, denom := 1 } := rfl
  have hl1 : lookupCard addWinState.cards "card_1" =
      some { id := "card_1", selected := false, selectedBy := none,
             num := 1, denom := 1 } := rfl
  have hg : gcdFuel 10 (some ((23 : ℚ) * 1 + 1 * 1)) (some ((1 : ℚ) * 1))
      = some (some 1) := by
    norm_num
    exact gcdFuel_tfour_one
  simp only [performOperationF, hl0, hl1, rnOf, rdOf, hg]
  norm_num [appliedState, addWinState, addWinResult, updateCard, removeCard, abs_lt]
  simp [sampleUser]

/-- Witness for the amended C3 theorem at concrete inputs: the thinking
timeout on `exactWinState` and the winning add on `addWinState`. -/
theorem won_implies_within_tolerance_witness :
    (exactWinState.gameWon = true ∨
      ∃ p : String × Card, exactWinState.cards = [p] ∧
        |p.2.num / p.2.denom - 24| < 1 / 1000)
    ∧ (addWinState.gameWon = true ∨
      ∃ c : Card, lookupCard addWinResult.cards "card_1" = some c ∧
        |c.num / c.denom - 24| < 1 / 1000) :=
  ⟨won_implies_within_tolerance.1 sampleUser exactWinState 5 7 (by
      have hs : succeededCheck exactWinState.cards = true := by
        simp only [succeededCheck, exactWinState, decide_eq_true_eq]
        norm_num [abs_lt]
      simp [endThinkingTime, hs]),
   won_implies_within_tolerance.2 10 sampleUser addWinState "card_0" "card_1" .add
     addWinResult performOperation_add_win (by simp) rfl⟩

/-- C4: when the thinking attempt fails (the success check does not hold at
resolution), `endThinkingTime` restores every card to its history entry's
original value with selection and operation cleared, and restarts the reset
deadline at `now + savedResetRemaining × 1000` where `savedResetRemaining` is
the remaining reset time snapshotted by `startThinkingTime` when Thinking was
entered — not the original 30 s. -/
theorem thinking_timeout_failure_restores :
    ∀ (u : User) (st0 st : GameState) (now0 now : Int),
      succeededCheck st.cards = false →
      (endThinkingTime u st now (remainingGameTime st0.timerEndTime now0)).cards
          = restoredCards st.cardHistory
      ∧ (endThinkingTime u st now (remainingGameTime st0.timerEndTime now0)).selectedCardId
          = none
      ∧ (endThinkingTime u st now (remainingGameTime st0.timerEndTime now0)).currentOperation
          = none
      ∧ (endThinkingTime u st now (remainingGameTime st0.timerEndTime now0)).timerEndTime
          = some (now + remainingGameTime st0.timerEndTime now0 * 1000)
      ∧ (endThinkingTime u st now (remainingGameTime st0.timerEndTime now0)).thinkingMode
          = false
      ∧ (endThinkingTime u st now (remainingGameTime st0.timerEndTime now0)).thinkingUserId
          = none
      ∧ (endThinkingTime u st now (remainingGameTime st0.timerEndTime now0)).thinkingEndTime
          = none := by
  intro u st0 st now0 now hs
  unfold endThinkingTime
  rw [if_neg (by simp [hs])]
  exact ⟨rfl, rfl, rfl, rfl, rfl, rfl, rfl⟩

/-- Witness for C4: entering Thinking at `now0 = 88000` with the reset
deadline at `100000` snapshots 12 remaining seconds; resolving the failed
attempt at `now = 99000` restores the original cards and sets the deadline to
`99000 + 12000 = 111000`, not `99000 + 30000`. -/
theorem thinking_timeout_failure_restores_witness :
    remainingGameTime lowestTermsState.timerEndTime 88000 = 12
    ∧ (endThinkingTime sampleUser lowestTermsState 99000
        (remainingGameTime lowestTermsState.timerEndTime 88000)).timerEndTime
        = some 111000
    ∧ (endThinkingTime sampleUser lowestTermsState 99000
        (remainingGameTime lowestTermsState.timerEndTime 88000)).cards
        = restoredCards lowestTermsState.cardHistory
    ∧ (endThinkingTime sampleUser lowestTermsState 99000
        (remainingGameTime lowestTermsState.timerEndTime 88000)).selectedCardId = none
    ∧ (endThinkingTime sampleUser lowestTermsState 99000
        (remainingGameTime lowestTermsState.timerEndTime 88000)).currentOperation = none := by
  have h12 : remainingGameTime lowestTermsState.timerEndTime 88000 = 12 := by
    show remainingGameTime (some 100000) 88000 = 12
    rw [remainingGameTime]
    norm_num
  have happ := thinking_timeout_failure_restores sampleUser lowestTermsState
    lowestTermsState 88000 99000 rfl
  refine ⟨h12, ?_, happ.1, happ.2.1, happ.2.2.1⟩
  rw [happ.2.2.2.1, h12]
  norm_num

/-- C6: while `thinkingMode` is held by some participant `holder`, a
`handleCardClick` issued by any other participant is rejected by the turn
guard before any branch that writes: the call returns the snapshot unchanged
(no store write), for every card id and regardless of selection ownership. -/
theorem selectCard_nonholder_noop :
    ∀ (fuel : Nat) (u : User) (st : GameState) (cardId holder : String),
      st.thinkingMode = true → st.thinkingUserId = some holder → holder ≠ u.id →
      handleCardClick fuel u st cardId = some st := by
  intro fuel u st cardId holder hm hh hne
  unfold handleCardClick
  by_cases hA : st.gameActive
  · rw [if_neg (by simp [hA]), if_pos (by simp [hm, hh, hne])]
  · rw [if_pos (by simp [hA])]

/-- A second connected participant who does not hold the thinking lock. -/
def otherUser : User := { id := "user_2", name := "Bob", color := "#00ff00", score := 0 }

/-- Witness for C6: Bob clicks `card_1` while Alice holds the thinking lock in
`lowestTermsState`; the call is a no-op. -/
theorem selectCard_nonholder_noop_witness :
    handleCardClick 10 otherUser lowestTermsState "card_1" = some lowestTermsState :=
  selectCard_nonholder_noop 10 otherUser lowestTermsState "card_1" "user_1"
    rfl rfl (by simp [otherUser])

/-- C8: a `handleCardClick` by the thinking holder on an existing, not
foreign-selected card, in an inconsistent session, clears `selectedCardId`
and `currentOperation` in a single write, touches nothing else (in
particular the cards map), aborts before selecting, and the resulting state
is consistent — so an identical second call does not take the self-healing
branch again but performs the normal first selection. -/
theorem selectCard_selfheal_once :
    ∀ (fuel : Nat) (u : User) (st : GameState) (cardId : String) (card : Card),
      st.gameActive = true → st.thinkingMode = true → st.thinkingUserId = some u.id →
      lookupCard st.cards cardId = some card →
      selectedByOther card u.id = false →
      inconsistentState st = true →
      handleCardClick fuel u st cardId =
          some { st with selectedCardId := none, currentOperation := none }
      ∧ ({ st with selectedCardId := none, currentOperation := none } : GameState).cards
          = st.cards
      ∧ inconsistentState { st with selectedCardId := none, currentOperation := none }
          = false
      ∧ handleCardClick fuel u
            { st with selectedCardId := none, currentOperation := none } cardId =
          some { st with
            cards := updateCard st.cards cardId
              (fun c => { c with selected := true, selectedBy := some u.id }),
            selectedCardId := some cardId,
            currentOperation := none } := by
  intro fuel u st cardId card hA hm hh hl hsel hinc
  refine ⟨?_, rfl, rfl, ?_⟩
  · unfold handleCardClick
    rw [if_neg (by simp [hA]), if_neg (by simp [hm, hh]), hl]
    simp only
    rw [if_neg (by simp [hsel]), if_pos hinc]
  · unfold handleCardClick
    rw [if_neg (by simp [hA]), if_neg (by simp [hm, hh])]
    have hl2 : lookupCard
        ({ st with selectedCardId := none, currentOperation := none } : GameState).cards
        cardId = some card := hl
    rw [hl2]
    simp only
    rw [if_neg (by simp [hsel]),
      if_neg (by simp [inconsistentState]), if_pos (by simp)]

/-- An inconsistent snapshot: `selectedCardId` points at `card_9`, which is
not in the cards map. -/
def ghostSelectionState : GameState :=
  { cards := [("card_0", { id := "card_0", selected := false, selectedBy := none,
                           num := 6, denom := 1 }),
              ("card_1", { id := "card_1", selected := false, selectedBy := none,
                           num := 4, denom := 1 })],
    selectedCardId := some "card_9",
    currentOperation := some .multiply,
    gameActive := true,
    thinkingMode := true,
    thinkingUserId := some "user_1",
    thinkingUserName := some "Alice",
    timerEndTime := some 100000,
    thinkingEndTime := some 50000,
    cardHistory := [{ id := "card_0", num := 6, denom := 1, isRemoved := false },
                    { id := "card_1", num := 4, denom := 1, isRemoved := false },
                    { id := "card_2", num := 2, denom := 1, isRemoved := true },
                    { id := "card_3", num := 9, denom := 1, isRemoved := true }],
    gameWon := false,
    lastWinner := none }

/-- `ghostSelectionState` after the self-healing write. -/
def ghostHealedState : GameState :=
  { ghostSelectionState with selectedCardId := none, currentOperation := none }

/-- `ghostSelectionState` after healing and then selecting `card_0`. -/
def ghostSelectedState : GameState :=
  { ghostSelectionState with
    cards := updateCard ghostSelectionState.cards "card_0"
      (fun c => { c with selected := true, selectedBy := some sampleUser.id }),
    selectedCardId := some "card_0",
    currentOperation := none }

/-- Witness for C8: Alice clicks `card_0` on `ghostSelectionState`; the call
only clears the selection state, and the repeated call selects `card_0`. -/
theorem selectCard_selfheal_once_witness :
    handleCardClick 10 sampleUser ghostSelectionState "card_0" = some ghostHealedState
      ∧ ghostHealedState.cards = ghostSelectionState.cards
      ∧ inconsistentState ghostHealedState = false
      ∧ handleCardClick 10 sampleUser ghostHealedState "card_0" = some ghostSelectedState :=
  selectCard_selfheal_once 10 sampleUser ghostSelectionState "card_0"
    { id := "card_0", selected := false, selectedBy := none, num := 6, denom := 1 }
    rfl rfl rfl rfl rfl rfl

/-- C10: the failed-attempt restore writes exactly the cards map (rebuilt from
the history snapshot), `selectedCardId` and `currentOperation`; every other
field — in particular `cardHistory`, so also every `isRemoved` flag set by
operations during the failed attempt — is left untouched. -/
theorem resetCardsToOriginal_frame :
    ∀ st : GameState,
      (resetCardsToOriginal st).cards = restoredCards st.cardHistory
      ∧ (resetCardsToOriginal st).selectedCardId = none
      ∧ (resetCardsToOriginal st).currentOperation = none
      ∧ (resetCardsToOriginal st).cardHistory = st.cardHistory
      ∧ (resetCardsToOriginal st).gameActive = st.gameActive
      ∧ (resetCardsToOriginal st).thinkingMode = st.thinkingMode
      ∧ (resetCardsToOriginal st).thinkingUserId = st.thinkingUserId
      ∧ (resetCardsToOriginal st).thinkingUserName = st.thinkingUserName
      ∧ (resetCardsToOriginal st).timerEndTime = st.timerEndTime
      ∧ (resetCardsToOriginal st).thinkingEndTime = st.thinkingEndTime
      ∧ (resetCardsToOriginal st).gameWon = st.gameWon
      ∧ (resetCardsToOriginal st).lastWinner = st.lastWinner :=
  fun _ => ⟨rfl, rfl, rfl, rfl, rfl, rfl, rfl, rfl, rfl, rfl, rfl, rfl⟩

/-- Consequences of one applied `performOperation` call for distinct cards on
a map with no duplicate ids: the count drops by one, card `a` is gone, card
`b` is still there (holding the result), `a`'s history entry is marked
removed, and the ids stay duplicate-free. -/
lemma performOperationF_applied_count {fuel : Nat} {u : User} {st : GameState}
    {a b : String} {op : Operation} {st' : GameState}
    (h : performOperationF fuel u st a b op = some (.applied st'))
    (hab : a ≠ b) (hnd : (st.cards.map Prod.fst).Nodup) :
    st'.cards.length + 1 = st.cards.length
    ∧ lookupCard st'.cards a = none
    ∧ (∃ c, lookupCard st'.cards b = some c)
    ∧ (∀ e ∈ st'.cardHistory, e.id = a → e.isRemoved = true)
    ∧ (st'.cards.map Prod.fst).Nodup := by
  obtain ⟨fc, sc, d, ha, hb, hg, hcase⟩ := performOperationF_applied_inv h
  have hcards : st'.cards = removeCard
      (updateCard st.cards b (fun c =>
        { c with num := rnOf fc sc op / d, denom := rdOf fc sc op / d,
                 selected := true, selectedBy := some u.id })) a := by
    rcases hcase with ⟨_, _, hst⟩ | ⟨_, hst⟩ <;> rw [hst] <;> rfl
  have hhist : st'.cardHistory = st.cardHistory.map
      (fun c => if c.id == a then { c with isRemoved := true } else c) := by
    rcases hcase with ⟨_, _, hst⟩ | ⟨_, hst⟩ <;> rw [hst] <;> rfl
  have hkeys := keys_updateCard st.cards b (fun c =>
    { c with num := rnOf fc sc op / d, denom := rdOf fc sc op / d,
             selected := true, selectedBy := some u.id })
  refine ⟨?_, ?_, ?_, ?_, ?_⟩
  · rw [hcards]
    rw [length_removeCard _ a (by rw [hkeys]; exact hnd)
      (by rw [hkeys]; exact lookupCard_isSome_mem st.cards a fc ha),
      length_updateCard]
  · rw [hcards]
    exact lookupCard_removeCard_self _ a
  · rw [hcards, lookupCard_removeCard_ne _ b a (Ne.symm hab),
      lookupCard_updateCard_self st.cards b _ sc hb]
    exact ⟨_, rfl⟩
  · intro e he hid
    rw [hhist] at he
    obtain ⟨e0, he0, heq⟩ := List.mem_map.mp he
    by_cases h0 : e0.id = a
    · rw [if_pos (by simp [h0])] at heq
      rw [← heq]
    · rw [if_neg (by simp [h0])] at heq
      exact absurd (heq ▸ hid) h0
  · rw [hcards]
    exact ((keys_removeCard_sublist _ a).nodup (hkeys ▸ hnd))

/-- A sequence of `performOperation` calls, each of which must complete and
actually apply (a guard rejection or a non-terminating `gcd` aborts the run). -/
def runOps (fuel : Nat) (u : User) :
    GameState → List (String × String × Operation) → Option GameState
  | st, [] => some st
  | st, (a, b, op) :: rest =>
    match performOperationF fuel u st a b op with
    | some (.applied st1) => runOps fuel u st1 rest
    | _ => none

lemma runOps_count {fuel : Nat} {u : User} :
    ∀ (l : List (String × String × Operation)) (st st' : GameState),
      runOps fuel u st l = some st' →
      (∀ x ∈ l, x.1 ≠ x.2.1) →
      (st.cards.map Prod.fst).Nodup →
      st'.cards.length + l.length = st.cards.length := by
  intro l
  induction l with
  | nil =>
    intro st st' h _ _
    simp only [runOps, Option.some.injEq] at h
    rw [← h]
    simp
  | cons x rest ih =>
    intro st st' h hne hnd
    rcases x with ⟨a, b, op⟩
    unfold runOps at h
    rcases hp : performOperationF fuel u st a b op with _ | (_ | st1) <;> rw [hp] at h
    · simp at h
    · simp at h
    · simp only at h
      have hab : a ≠ b := hne (a, b, op) (List.mem_cons_self _ _)
      obtain ⟨hlen, _, _, _, hnd1⟩ := performOperationF_applied_count hp hab hnd
      have hrest := ih st1 st' h (fun x hx => hne x (List.mem_cons_of_mem _ hx)) hnd1
      simp only [List.length_cons]
      omega

/-- C7: every completed, applied `performOperation` call on distinct card ids
removes card `a`, keeps card `b` (now holding the result), marks `a`'s
history entry `isRemoved`, and shrinks the cards map by exactly one — so a
run of `k` successful calls from the initial snapshot leaves exactly
`(number of starting cards) - k` cards, e.g. `4 - k` from the 4-card start. -/
theorem applyOperation_decrements_card_count :
    (∀ (fuel : Nat) (u : User) (st : GameState) (a b : String) (op : Operation)
        (st' : GameState),
      performOperationF fuel u st a b op = some (.applied st') → a ≠ b →
      (st.cards.map Prod.fst).Nodup →
      st'.cards.length + 1 = st.cards.length
      ∧ lookupCard st'.cards a = none
      ∧ (∃ c, lookupCard st'.cards b = some c)
      ∧ (∀ e ∈ st'.cardHistory, e.id = a → e.isRemoved = true))
    ∧ (∀ (fuel : Nat) (u : User) (l : List (String × String × Operation))
        (st st' : GameState),
      runOps fuel u st l = some st' →
      (∀ x ∈ l, x.1 ≠ x.2.1) →
      (st.cards.map Prod.fst).Nodup →
      st.cards.length = 4 →
      st'.cards.length + l.length = 4) := by
  constructor
  · intro fuel u st a b op st' h hab hnd
    obtain ⟨h1, h2, h3, h4, _⟩ := performOperationF_applied_count h hab hnd
    exact ⟨h1, h2, h3, h4⟩
  · intro fuel u l st st' h hne hnd h4
    rw [← h4]
    exact runOps_count l st st' h hne hnd

/-- Witness for C7 at the concrete division on `lowestTermsState` (3 cards →
2 cards), both for a single call and for a one-element run. -/
theorem applyOperation_decrements_card_count_witness :
    (lowestTermsResult.cards.length + 1 = lowestTermsState.cards.length
      ∧ lookupCard lowestTermsResult.cards "card_0" = none
      ∧ (∃ c, lookupCard lowestTermsResult.cards "card_1" = some c)
      ∧ (∀ e ∈ lowestTermsResult.cardHistory, e.id = "card_0" → e.isRemoved = true))
    ∧ lowestTermsResult.cards.length + [("card_0", "card_1", Operation.divide)].length
        = 4 :=
  ⟨applyOperation_decrements_card_count.1 10 sampleUser lowestTermsState
      "card_0" "card_1" .divide lowestTermsResult performOperation_div_three_two
      (by simp) (by simp [lowestTermsState]),
   applyOperation_decrements_card_count.2 10 sampleUser
      [("card_0", "card_1", Operation.divide)] lowestTermsState lowestTermsResult
      (by simp [runOps, performOperation_div_three_two])
      (by simp) (by simp [lowestTermsState]) rfl⟩

/-- C5: for the starting cards `[3,3,8,8]` and target 24 the solver finds the
7-token reverse-Polish sequence `[8, 3, 8, 3, -4, -2, -4]` (the first one in
its search order); the stack machine evaluates it to exactly 24 — in
particular within the `1e-6` tolerance the solver tests — and `convert`
renders it as the fully parenthesized `"(8 / (3 - (8 / 3))) = 24"`.
Moreover `convert` of any nonempty (hence any found) sequence ends in
`" = 24"`. -/
theorem solver_finds_24_for_3388 :
    recurseF 20 [3, 3, 8, 8] [] ⟨24, 1⟩ = some [8, 3, 8, 3, -4, -2, -4]
    ∧ solveF 20 3 3 8 8 = [8, 3, 8, 3, -4, -2, -4]
    ∧ ([8, 3, 8, 3, -4, -2, -4] : List Int).length = 7
    ∧ calcRPN [8, 3, 8, 3, -4, -2, -4] = some ⟨24, 1⟩
    ∧ Frac.val ⟨24, 1⟩ = 24
    ∧ (Frac.subF ⟨24, 1⟩ ⟨24, 1⟩).absLt ⟨1, 1000000⟩ = true
    ∧ convertRPN [8, 3, 8, 3, -4, -2, -4] = "(8 / (3 - (8 / 3))) = 24"
    ∧ (∀ dq : List Int, dq ≠ [] → ∃ s, convertRPN dq = s ++ " = 24") := by
  have h1 : recurseF 20 [3, 3, 8, 8] [] ⟨24, 1⟩ = some [8, 3, 8, 3, -4, -2, -4] := by
    decide
  refine ⟨h1, ?_, rfl, by decide, by norm_num [Frac.val], by decide, by decide, ?_⟩
  · show (recurseF 20 [3, 3, 8, 8] [] ⟨24, 1⟩).getD [] = _
    rw [h1]
    rfl
  · intro dq hdq
    unfold convertRPN
    rw [if_neg (by simp [hdq])]
    exact ⟨_, rfl⟩

/-- Witness for the universally quantified tail of the C5 theorem at the
concrete one-token sequence `[3]`. -/
theorem solver_finds_24_for_3388_witness :
    ∃ s, convertRPN [(3 : Int)] = s ++ " = 24" :=
  solver_finds_24_for_3388.2.2.2.2.2.2.2 [(3 : Int)] (by simp)
